import Mathlib

/-!
Shallow embedding of `src/js/main.js` from the JWTime/jwtime repository:
client-side presentation behavior for a static documentation site (theme
switching, language selection, navigation helpers, page enhancements).

DOM and browser state are modelled explicitly: the body's class list is a
`List String`, `localStorage` entries are `Option String`, navigation is a
recorded target URL, and the OS color-scheme preference is a `Bool`.
JavaScript string operations (`includes`, `startsWith`, `split`) are
embedded as executable functions on `String`.
-/

namespace JWTime

/-! ### JavaScript string primitives -/

/-- `listLeads s p` holds when the character list `p` starts the list `s`
(embedding of JS `String.prototype.startsWith` on exploded strings). -/
def listLeads : List Char → List Char → Bool
  | _, [] => true
  | [], _ :: _ => false
  | a :: s, b :: p => a == b && listLeads s p

/-- `listHas s p` holds when `p` occurs contiguously inside `s`. -/
def listHas : List Char → List Char → Bool
  | [], p => listLeads [] p
  | a :: s, p => listLeads (a :: s) p || listHas s p

/-- JS `s.startsWith(p)`. -/
def strLeads (s p : String) : Bool := listLeads s.toList p.toList

/-- JS `s.includes(p)` : substring containment test. -/
def strIncludes (s p : String) : Bool := listHas s.toList p.toList

/-- JS `s.split(sep)` for a one-character separator, on exploded strings.
`split` always yields at least one (possibly empty) group. -/
def splitChar (sep : Char) : List Char → List (List Char)
  | [] => [[]]
  | c :: rest =>
    match splitChar sep rest, c == sep with
    | r, true => [] :: r
    | [], false => [[c]]
    | g :: gs, false => (c :: g) :: gs

/-- JS `path.split('/')` returning strings. -/
def strSplitSlash (s : String) : List String :=
  (splitChar '/' s.toList).map (fun g => String.mk g)

/-! ### DOM classList model

A `classList` is the ordered list of class tokens on an element.
`remove` deletes every occurrence of the token, `add` appends it only when
absent, `toggle` flips its presence, `contains` tests membership —
matching the DOMTokenList operations used by the source. -/

def classContains (cs : List String) (c : String) : Bool := cs.contains c

def classRemove (cs : List String) (c : String) : List String :=
  cs.filter (fun x => x != c)

def classAdd (cs : List String) (c : String) : List String :=
  if cs.contains c then cs else cs ++ [c]

def classToggle (cs : List String) (c : String) : List String :=
  if cs.contains c then classRemove cs c else cs ++ [c]

/-! ### Theme management (`Theme` object, main.js lines 13-143) -/

namespace Theme

def DARK : String := "dark"
def LIGHT : String := "light"
def AUTO : String := "auto"

/-- Browser state relevant to the Theme module: body class list, the
persisted `jwtime-theme` storage entry, and the OS color-scheme report. -/
structure State where
  body : List String
  storage : Option String
  osPrefersDark : Bool
deriving Repr, DecidableEq

/-- `Theme.applyTheme` (main.js lines 52-60): remove both theme classes,
then add the one matching the argument (nothing for any other value). -/
def applyTheme (theme : String) (body : List String) : List String :=
  let b := classRemove (classRemove body "dark-theme") "light-theme"
  if theme == DARK then classAdd b "dark-theme"
  else if theme == LIGHT then classAdd b "light-theme"
  else b

/-- `Theme.getCurrentTheme` (main.js lines 99-107). -/
def getCurrentTheme (body : List String) (osPrefersDark : Bool) : String :=
  if classContains body "dark-theme" then DARK
  else if classContains body "light-theme" then LIGHT
  else if osPrefersDark then DARK else LIGHT

/-- `Theme.saveTheme` (main.js lines 45-47): overwrite the stored value. -/
def saveTheme (theme : String) (_storage : Option String) : Option String :=
  some theme

/-- `Theme.toggle` (main.js lines 87-94): flip the resolved theme,
apply and persist it. (`updateToggleButton` only rewrites the button's
icon and title, which this state does not track.) -/
def toggle (s : State) : State :=
  let currentTheme := getCurrentTheme s.body s.osPrefersDark
  let newTheme := if currentTheme == DARK then LIGHT else DARK
  { s with body := applyTheme newTheme s.body,
           storage := saveTheme newTheme s.storage }

end Theme

/-! ### Language management (`Language` object, main.js lines 149-219) -/

namespace Language

/-- `Language.SUPPORTED` (main.js line 151). -/
def SUPPORTED : List String := ["it", "en", "es", "de", "fr", "pt_BR"]

/-- Browser state relevant to the Language module: the persisted
`jwtime-lang` storage entry, the current `window.location.pathname`, and
the target of any full-page navigation performed so far. -/
structure State where
  storage : Option String
  location : String
  navigatedTo : Option String
deriving Repr, DecidableEq

/-- `Language.save` (main.js lines 156-160): persist only supported codes. -/
def save (lang : String) (storage : Option String) : Option String :=
  if SUPPORTED.contains lang then some lang else storage

/-- `Language.switch` (main.js lines 172-187): for a supported code,
persist it and navigate to the same page under the new language segment;
otherwise return without any effect. -/
def switch (newLang : String) (s : State) : State :=
  if SUPPORTED.contains newLang then
    let storage := save newLang s.storage
    let currentPath := s.location
    let basePath := if strIncludes currentPath "/jwtime/" then "/jwtime/" else "/"
    let pathParts := strSplitSlash currentPath
    let lastPart := pathParts.getLastD ""
    let currentPage := if lastPart == "" then "index.html" else lastPart
    { s with storage := storage,
             navigatedTo := some (basePath ++ newLang ++ "/" ++ currentPage) }
  else s

/-- One attempt of the regex `/\/(it|en|es|de|fr|pt_BR)\//` at the front of
the remaining input: the alternatives are tried left to right. -/
def matchLangAt (cs : List Char) : Option String :=
  SUPPORTED.find? (fun lang => listLeads cs ("/" ++ lang ++ "/").toList)

/-- Leftmost regex match of `/\/(it|en|es|de|fr|pt_BR)\//` over the path,
returning the captured language group. -/
def findLang : List Char → Option String
  | [] => none
  | c :: rest =>
    match matchLangAt (c :: rest) with
    | some l => some l
    | none => findLang rest

/-- `Language.detectAndSaveCurrentLanguage` (main.js lines 210-218). -/
def detectAndSaveCurrentLanguage (s : State) : State :=
  match findLang s.location.toList with
  | some l => { s with storage := save l s.storage }
  | none => s

end Language

/-! ### Navigation helpers (`Navigation` object, main.js lines 225-280) -/

namespace Navigation

/-- A navigation anchor under `.nav`: its `href` attribute and class list. -/
structure NavLink where
  href : String
  classes : List String
deriving Repr, DecidableEq

/-- The per-link body of the `forEach` in `Navigation.setActiveLink`
(main.js lines 233-241): mark a link active when its href occurs in the
current path and is not the bare root, else clear the marker. -/
def setActiveOne (currentPath : String) (link : NavLink) : NavLink :=
  if strIncludes currentPath link.href && link.href != "/" then
    { link with classes := classAdd link.classes "active" }
  else
    { link with classes := classRemove link.classes "active" }

/-- `Navigation.setActiveLink` (main.js lines 229-242). -/
def setActiveLink (currentPath : String) (links : List NavLink) : List NavLink :=
  links.map (setActiveOne currentPath)

/-- DOM state relevant to the mobile menu: the `#mobile-menu-toggle`
element's class list and the `.nav` element's class list, each `none`
when the element is absent, plus the number of click handlers bound on
the toggle control. -/
structure MenuDom where
  toggleClasses : Option (List String)
  navClasses : Option (List String)
  handlers : Nat
deriving Repr, DecidableEq

/-- `Navigation.setupMobileMenu` (main.js lines 247-257): when both
elements exist, bind one click handler; otherwise do nothing. -/
def setupMobileMenu (d : MenuDom) : MenuDom :=
  match d.toggleClasses, d.navClasses with
  | some _, some _ => { d with handlers := d.handlers + 1 }
  | _, _ => d

/-- The click handler bound by `setupMobileMenu` (main.js lines 253-256):
toggle `active` on both the nav container and the menu-toggle control. -/
def menuClick (d : MenuDom) : MenuDom :=
  match d.toggleClasses, d.navClasses with
  | some t, some n =>
    { d with navClasses := some (classToggle n "active"),
             toggleClasses := some (classToggle t "active") }
  | _, _ => d

/-- `n` successive clicks on the mobile-menu toggle. -/
def menuClicks : Nat → MenuDom → MenuDom
  | 0, d => d
  | n + 1, d => menuClicks n (menuClick d)

/-- Whether an optional element currently carries the `active` marker. -/
def activeMarker : Option (List String) → Bool
  | some cs => classContains cs "active"
  | none => false

end Navigation

/-! ### Page utilities (`Utils` object, main.js lines 286-343) -/

namespace Utils

/-- An anchor element as `setupExternalLinks` sees it: the `href`
attribute, the parsed `hostname`, and the `target` / `rel` attributes. -/
structure Link where
  href : String
  hostname : String
  target : Option String
  rel : Option String
deriving Repr, DecidableEq

/-- `Utils.setupExternalLinks` (main.js lines 319-328): over the anchors
matched by `a[href^="http"]`, set `target` / `rel` on those whose
hostname does not contain the page hostname. -/
def setupExternalLinks (pageHostname : String) (links : List Link) : List Link :=
  links.map fun link =>
    if strLeads link.href "http" then
      if strIncludes link.hostname pageHostname then link
      else { link with target := some "_blank", rel := some "noopener noreferrer" }
    else link

/-- Events a copy button reacts to after its click started a clipboard
write (main.js lines 304-312): the write resolves or rejects, or the
scheduled revert timer fires. -/
inductive CopyEvent
  | clipboardOk
  | clipboardErr
  | timerFire
deriving Repr, DecidableEq

/-- State of one copy button: its label and the pending revert timer's
delay in milliseconds, if one is scheduled. -/
structure CopyButton where
  label : String
  pendingTimer : Option Nat
deriving Repr, DecidableEq

/-- A freshly installed copy button (main.js line 298): label `Copy`. -/
def newCopyButton : CopyButton := { label := "Copy", pendingTimer := none }

/-- Reaction of a copy button to one event: on clipboard success the
`.then` callback sets the label to `Copied!` and schedules a 2000 ms
revert; a rejected write has no handler, so nothing changes; the timer
callback restores `Copy` (main.js lines 306-311). -/
def copyStep : CopyEvent → CopyButton → CopyButton
  | .clipboardOk, _ => { label := "Copied!", pendingTimer := some 2000 }
  | .clipboardErr, b => b
  | .timerFire, b => if b.pendingTimer.isSome
      then { label := "Copy", pendingTimer := none }
      else b

end Utils

/-! ### classList lemmas -/

theorem classContains_classRemove_self (cs : List String) (c : String) :
    classContains (classRemove cs c) c = false := by
  simp [classContains, classRemove, List.elem_eq_mem, List.mem_filter]

theorem classContains_classAdd_self (cs : List String) (c : String) :
    classContains (classAdd cs c) c = true := by
  simp [classContains, classAdd, List.elem_eq_mem]
  split <;> simp_all

theorem classContains_classAdd_of_ne (cs : List String) (c d : String) (h : c ≠ d) :
    classContains (classAdd cs c) d = classContains cs d := by
  simp [classContains, classAdd, List.elem_eq_mem]
  split <;> simp [Ne.symm h]

theorem classContains_classRemove_of_ne (cs : List String) (c d : String) (h : c ≠ d) :
    classContains (classRemove cs c) d = classContains cs d := by
  simp [classContains, classRemove, List.elem_eq_mem, List.mem_filter, h]
  exact fun _ hdc => h hdc.symm

theorem classRemove_of_not_contains (cs : List String) (c : String)
    (h : classContains cs c = false) : classRemove cs c = cs := by
  simp [classContains, List.elem_eq_mem] at h
  exact List.filter_eq_self.mpr (fun a ha => by simp [bne]; rintro rfl; exact h ha)

theorem classAdd_of_contains (cs : List String) (c : String)
    (h : classContains cs c = true) : classAdd cs c = cs := by
  simp [classAdd, classContains] at *; simp [h]

theorem classContains_classToggle_self (cs : List String) (c : String) :
    classContains (classToggle cs c) c = !(classContains cs c) := by
  by_cases h : c ∈ cs
  · have hb : cs.contains c = true := by simpa [List.elem_eq_mem] using h
    have h1 := classContains_classRemove_self cs c
    simp only [classContains, List.elem_eq_mem, decide_eq_false_iff_not] at h1
    simp [classToggle, hb, classContains, List.elem_eq_mem, h, h1]
  · have hb : cs.contains c = false := by simpa [List.elem_eq_mem] using h
    simp [classToggle, hb, classContains, List.elem_eq_mem, h]

theorem classRemove_classRemove (cs : List String) (c : String) :
    classRemove (classRemove cs c) c = classRemove cs c :=
  classRemove_of_not_contains _ _ (classContains_classRemove_self cs c)

theorem classAdd_classAdd (cs : List String) (c : String) :
    classAdd (classAdd cs c) c = classAdd cs c :=
  classAdd_of_contains _ _ (classContains_classAdd_self cs c)

/-! ### Theme lemmas -/

theorem applyTheme_contains_dark (v : String) (body : List String) :
    classContains (Theme.applyTheme v body) "dark-theme" = (v == Theme.DARK) := by
  unfold Theme.applyTheme
  by_cases hd : v == Theme.DARK
  · simp [hd, classContains_classAdd_self]
  · simp only [hd, Bool.false_eq_true, if_false]
    by_cases hl : v == Theme.LIGHT
    · simp only [hl, if_true]
      rw [classContains_classAdd_of_ne _ _ _ (by decide : "light-theme" ≠ "dark-theme")]
      rw [classContains_classRemove_of_ne _ _ _ (by decide : "light-theme" ≠ "dark-theme")]
      simp [hd, classContains_classRemove_self]
    · simp only [hl, Bool.false_eq_true, if_false]
      rw [classContains_classRemove_of_ne _ _ _ (by decide : "light-theme" ≠ "dark-theme")]
      simp [hd, classContains_classRemove_self]

theorem applyTheme_contains_light (v : String) (body : List String) :
    classContains (Theme.applyTheme v body) "light-theme" = (v == Theme.LIGHT) := by
  unfold Theme.applyTheme
  by_cases hd : v == Theme.DARK
  · have hvd : v = Theme.DARK := by simpa using hd
    simp only [hd, if_true]
    rw [classContains_classAdd_of_ne _ _ _ (by decide : "dark-theme" ≠ "light-theme")]
    simp [classContains_classRemove_self, hvd, Theme.DARK, Theme.LIGHT]
  · simp only [hd, Bool.false_eq_true, if_false]
    by_cases hl : v == Theme.LIGHT
    · simp [hl, classContains_classAdd_self]
    · simp [hl, classContains_classRemove_self]

theorem getCurrentTheme_applyTheme_dark (body : List String) (os : Bool) :
    Theme.getCurrentTheme (Theme.applyTheme Theme.DARK body) os = Theme.DARK := by
  unfold Theme.getCurrentTheme
  rw [applyTheme_contains_dark]
  simp

theorem getCurrentTheme_applyTheme_light (body : List String) (os : Bool) :
    Theme.getCurrentTheme (Theme.applyTheme Theme.LIGHT body) os = Theme.LIGHT := by
  unfold Theme.getCurrentTheme
  rw [applyTheme_contains_dark, applyTheme_contains_light]
  simp [Theme.DARK, Theme.LIGHT]

theorem getCurrentTheme_dark_or_light (body : List String) (os : Bool) :
    Theme.getCurrentTheme body os = Theme.DARK ∨
      Theme.getCurrentTheme body os = Theme.LIGHT := by
  unfold Theme.getCurrentTheme
  split
  · exact Or.inl rfl
  · split
    · exact Or.inr rfl
    · split
      · exact Or.inl rfl
      · exact Or.inr rfl

theorem getCurrentTheme_toggle (s : Theme.State) :
    Theme.getCurrentTheme (Theme.toggle s).body (Theme.toggle s).osPrefersDark
      = (if Theme.getCurrentTheme s.body s.osPrefersDark == Theme.DARK
          then Theme.LIGHT else Theme.DARK) := by
  have hld : (Theme.LIGHT == Theme.DARK) = false := by decide
  rcases getCurrentTheme_dark_or_light s.body s.osPrefersDark with h | h <;>
    simp [Theme.toggle, Theme.saveTheme, h, hld,
      getCurrentTheme_applyTheme_dark, getCurrentTheme_applyTheme_light]

theorem toggle_osPrefersDark (s : Theme.State) :
    (Theme.toggle s).osPrefersDark = s.osPrefersDark := rfl

/-- Claim C3, counterexample: the claim asserts that after `applyTheme v`
the body carries exactly one of the two theme classifiers for every input
value `v`; but `applyTheme "auto"` on an empty class list yields a body
carrying neither classifier. -/
theorem claim_C3_counterexample :
    ¬ (classContains (Theme.applyTheme "auto" []) "dark-theme" = true
        ∨ classContains (Theme.applyTheme "auto" []) "light-theme" = true) := by
  decide

/-- Claim C3, amended: after `applyTheme v` the two theme classifiers are
mutually exclusive — the body never carries both — and the body carries
the `dark-theme` classifier exactly when `v` is `dark` and the
`light-theme` classifier exactly when `v` is `light`; in particular no
classifier (and never an `auto` visual state) results from any other
value, `auto` included. -/
theorem claim_C3 (v : String) (body : List String) :
    (classContains (Theme.applyTheme v body) "dark-theme"
        && classContains (Theme.applyTheme v body) "light-theme") = false
    ∧ classContains (Theme.applyTheme v body) "dark-theme" = (v == Theme.DARK)
    ∧ classContains (Theme.applyTheme v body) "light-theme" = (v == Theme.LIGHT) := by
  refine ⟨?_, applyTheme_contains_dark v body, applyTheme_contains_light v body⟩
  rw [applyTheme_contains_dark, applyTheme_contains_light]
  by_cases h : v == Theme.DARK
  · have hv : v = Theme.DARK := by simpa using h
    simp [hv, Theme.DARK, Theme.LIGHT]
  · simp [h]

/-- Claim C7: for each `v` in `{dark, light}`, `applyTheme v` followed by
`getCurrentTheme` returns `v`, whatever the prior body class list and the
OS color-scheme preference were. -/
theorem claim_C7 (body : List String) (os : Bool) :
    Theme.getCurrentTheme (Theme.applyTheme Theme.DARK body) os = Theme.DARK
    ∧ Theme.getCurrentTheme (Theme.applyTheme Theme.LIGHT body) os = Theme.LIGHT :=
  ⟨getCurrentTheme_applyTheme_dark body os, getCurrentTheme_applyTheme_light body os⟩

/-- Claim C10: two successive `Theme.toggle` calls restore the resolved
theme reported by `getCurrentTheme`, for every starting browser state
(body classes, stored preference, fixed OS preference). -/
theorem claim_C10 (s : Theme.State) :
    Theme.getCurrentTheme (Theme.toggle (Theme.toggle s)).body
        (Theme.toggle (Theme.toggle s)).osPrefersDark
      = Theme.getCurrentTheme s.body s.osPrefersDark := by
  have h1 := getCurrentTheme_toggle s
  have h2 := getCurrentTheme_toggle (Theme.toggle s)
  rw [h2, h1]
  have hld : (Theme.LIGHT == Theme.DARK) = false := by decide
  rcases getCurrentTheme_dark_or_light s.body s.osPrefersDark with h | h <;>
    simp [h, hld, Theme.DARK, Theme.LIGHT]

/-! ### Language lemmas and claims -/

theorem matchLangAt_mem (cs : List Char) (l : String)
    (h : Language.matchLangAt cs = some l) : l ∈ Language.SUPPORTED :=
  List.mem_of_find?_eq_some h

theorem findLang_mem (cs : List Char) (l : String)
    (h : Language.findLang cs = some l) : l ∈ Language.SUPPORTED := by
  induction cs with
  | nil => simp [Language.findLang] at h
  | cons c rest ih =>
    rw [Language.findLang] at h
    cases hm : Language.matchLangAt (c :: rest) with
    | some l2 => rw [hm] at h; cases h; exact matchLangAt_mem _ _ hm
    | none => rw [hm] at h; exact ih h

/-- Claim C2: for every supported language code `L`, `switch L` from path
`/it/manual.html` persists `L` and navigates to the same page under the
new language segment; and from the bare root path `/`, `switch "fr"`
navigates to `/fr/index.html`, falling back to the default filename. -/
theorem claim_C2 (L : String) (st : Option String) (hL : L ∈ Language.SUPPORTED) :
    ((Language.switch L
        { storage := st, location := "/it/manual.html", navigatedTo := none }).storage
          = some L
      ∧ (Language.switch L
          { storage := st, location := "/it/manual.html", navigatedTo := none }).navigatedTo
          = some ("/" ++ L ++ "/manual.html"))
    ∧ (Language.switch "fr"
        { storage := st, location := "/", navigatedTo := none }).navigatedTo
        = some "/fr/index.html" := by
  refine ⟨?_, rfl⟩
  fin_cases hL <;> exact ⟨rfl, rfl⟩

/-- Claim C2 witness at `L := "en"`, empty storage. -/
theorem claim_C2_witness :
    "en" ∈ Language.SUPPORTED
    ∧ (((Language.switch "en"
          { storage := none, location := "/it/manual.html", navigatedTo := none }).storage
            = some "en"
        ∧ (Language.switch "en"
            { storage := none, location := "/it/manual.html", navigatedTo := none }).navigatedTo
            = some ("/" ++ "en" ++ "/manual.html"))
       ∧ (Language.switch "fr"
          { storage := none, location := "/", navigatedTo := none }).navigatedTo
          = some "/fr/index.html") :=
  ⟨by decide, claim_C2 "en" none (by decide)⟩

/-- Claim C5: only supported language codes ever reach the persisted
language entry or a navigation URL — `save` either leaves storage alone
or stores a supported code, `switch` either does nothing or stores a
supported code and navigates to a URL built from it, and
`detectAndSaveCurrentLanguage` either leaves storage alone or stores a
supported code extracted from the path. -/
theorem claim_C5 (lang : String) (storage : Option String) (s : Language.State) :
    (Language.save lang storage = storage
      ∨ (Language.SUPPORTED.contains lang = true
          ∧ Language.save lang storage = some lang))
    ∧ (Language.switch lang s = s
      ∨ (Language.SUPPORTED.contains lang = true
          ∧ (Language.switch lang s).storage = some lang
          ∧ ∃ base page, (base = "/jwtime/" ∨ base = "/")
              ∧ (Language.switch lang s).navigatedTo
                  = some (base ++ lang ++ "/" ++ page)))
    ∧ ((Language.detectAndSaveCurrentLanguage s).storage = s.storage
      ∨ ∃ l, Language.SUPPORTED.contains l = true
          ∧ (Language.detectAndSaveCurrentLanguage s).storage = some l) := by
  refine ⟨?_, ?_, ?_⟩
  · by_cases hc : lang ∈ Language.SUPPORTED
    · have hb : Language.SUPPORTED.contains lang = true := by
        simpa [List.elem_eq_mem] using hc
      exact Or.inr ⟨hb, by simp [Language.save, hc]⟩
    · exact Or.inl (by simp [Language.save, hc])
  · by_cases hc : lang ∈ Language.SUPPORTED
    · have hb : Language.SUPPORTED.contains lang = true := by
        simpa [List.elem_eq_mem] using hc
      refine Or.inr ⟨hb, by simp [Language.switch, Language.save, hc], ?_⟩
      by_cases hj : strIncludes s.location "/jwtime/"
      · exact ⟨"/jwtime/",
          (if (strSplitSlash s.location).getLastD "" == "" then "index.html"
            else (strSplitSlash s.location).getLastD ""),
          Or.inl rfl, by simp [Language.switch, List.getLastD_eq_getLast?, hc, hj]⟩
      · exact ⟨"/",
          (if (strSplitSlash s.location).getLastD "" == "" then "index.html"
            else (strSplitSlash s.location).getLastD ""),
          Or.inr rfl, by simp [Language.switch, List.getLastD_eq_getLast?, hc, hj]⟩
    · exact Or.inl (by simp [Language.switch, hc])
  · cases hf : Language.findLang s.location.toList with
    | none =>
      refine Or.inl ?_
      simp only [String.toList] at hf
      simp [Language.detectAndSaveCurrentLanguage, hf]
    | some l =>
      have hmem : l ∈ Language.SUPPORTED := findLang_mem _ _ hf
      have hm : Language.SUPPORTED.contains l = true := by
        simpa [List.elem_eq_mem] using hmem
      refine Or.inr ⟨l, hm, ?_⟩
      simp only [String.toList] at hf
      simp [Language.detectAndSaveCurrentLanguage, hf, Language.save, hmem]

/-- Claim C6: for a language code outside the supported set, `save`
leaves the stored entry unchanged and `switch` changes nothing at all —
no persisted change and no navigation. -/
theorem claim_C6 (lang : String) (storage : Option String) (s : Language.State)
    (h : Language.SUPPORTED.contains lang = false) :
    Language.save lang storage = storage ∧ Language.switch lang s = s := by
  have hc : lang ∉ Language.SUPPORTED := by
    simpa [List.elem_eq_mem] using h
  constructor
  · simp [Language.save, hc]
  · simp [Language.switch, hc]

/-- Claim C6 witness at the unsupported code `"xx"`. -/
theorem claim_C6_witness :
    Language.SUPPORTED.contains "xx" = false
    ∧ (Language.save "xx" (some "it") = some "it"
       ∧ Language.switch "xx"
           { storage := some "it", location := "/it/manual.html", navigatedTo := none }
           = { storage := some "it", location := "/it/manual.html", navigatedTo := none }) :=
  ⟨by decide, claim_C6 "xx" (some "it") _ (by decide)⟩

/-! ### Navigation lemmas and claims -/

theorem setActiveOne_href (p : String) (l : Navigation.NavLink) :
    (Navigation.setActiveOne p l).href = l.href := by
  unfold Navigation.setActiveOne
  split <;> rfl

theorem setActiveOne_marker (p : String) (l : Navigation.NavLink) :
    classContains (Navigation.setActiveOne p l).classes "active"
      = (strIncludes p l.href && l.href != "/") := by
  unfold Navigation.setActiveOne
  split
  case isTrue h => simp [classContains_classAdd_self, h]
  case isFalse h =>
    simp only [classContains_classRemove_self]
    exact (Bool.eq_false_iff.mpr h).symm

theorem setActiveOne_setActiveOne (p : String) (l : Navigation.NavLink) :
    Navigation.setActiveOne p (Navigation.setActiveOne p l)
      = Navigation.setActiveOne p l := by
  unfold Navigation.setActiveOne
  split
  case isTrue h => simp [h, classAdd_classAdd]
  case isFalse h => simp [classRemove_classRemove]

/-- Claim C8: `setActiveLink` leaves each navigation anchor carrying the
`active` marker exactly when its href is a substring of the current path
and is not the bare root `/`; and a second run over the same path changes
nothing (idempotence). -/
theorem claim_C8 (currentPath : String) (links : List Navigation.NavLink) :
    (Navigation.setActiveLink currentPath links).map
        (fun l => classContains l.classes "active")
      = links.map (fun l => strIncludes currentPath l.href && l.href != "/")
    ∧ Navigation.setActiveLink currentPath (Navigation.setActiveLink currentPath links)
        = Navigation.setActiveLink currentPath links := by
  constructor
  · unfold Navigation.setActiveLink
    rw [List.map_map]
    induction links with
    | nil => rfl
    | cons l ls ih => simp [setActiveOne_marker, ih]
  · unfold Navigation.setActiveLink
    rw [List.map_map]
    induction links with
    | nil => rfl
    | cons l ls ih => simp [Function.comp, setActiveOne_setActiveOne, ih]

theorem activeMarker_menuClick (d : Navigation.MenuDom)
    (t nv : List String) (ht : d.toggleClasses = some t) (hn : d.navClasses = some nv) :
    Navigation.activeMarker (Navigation.menuClick d).toggleClasses
        = !(Navigation.activeMarker d.toggleClasses)
    ∧ Navigation.activeMarker (Navigation.menuClick d).navClasses
        = !(Navigation.activeMarker d.navClasses) := by
  simp [Navigation.menuClick, ht, hn, Navigation.activeMarker,
    classContains_classToggle_self]

theorem menuClick_agree (d : Navigation.MenuDom)
    (h : Navigation.activeMarker d.toggleClasses = Navigation.activeMarker d.navClasses) :
    Navigation.activeMarker (Navigation.menuClick d).toggleClasses
      = Navigation.activeMarker (Navigation.menuClick d).navClasses := by
  cases ht : d.toggleClasses with
  | none =>
    rw [ht] at h
    simp [Navigation.menuClick, ht, h]
  | some t =>
    cases hn : d.navClasses with
    | none =>
      rw [ht, hn] at h
      simp [Navigation.menuClick, ht, hn, h]
    | some nv =>
      rw [ht, hn] at h
      simp [Navigation.menuClick, ht, hn, Navigation.activeMarker,
        classContains_classToggle_self] at h ⊢
      simp [h]

theorem menuClicks_agree (n : Nat) (d : Navigation.MenuDom)
    (h : Navigation.activeMarker d.toggleClasses = Navigation.activeMarker d.navClasses) :
    Navigation.activeMarker (Navigation.menuClicks n d).toggleClasses
      = Navigation.activeMarker (Navigation.menuClicks n d).navClasses := by
  induction n generalizing d with
  | zero => exact h
  | succ n ih => exact ih _ (menuClick_agree d h)

/-- Claim C4, counterexample: the claim asserts that after every click the
menu-toggle control and the nav container agree on the `active` marker for
every initial state; but starting from a state where only the toggle
control carries the marker, one click leaves them still in disagreement. -/
theorem claim_C4_counterexample :
    ¬ (Navigation.activeMarker (Navigation.menuClicks 1
          { toggleClasses := some ["active"], navClasses := some [], handlers := 1 }).toggleClasses
        = Navigation.activeMarker (Navigation.menuClicks 1
          { toggleClasses := some ["active"], navClasses := some [], handlers := 1 }).navClasses) := by
  decide

/-- Claim C4, amended: `setupMobileMenu` is a no-op when either element is
absent and binds exactly one click handler when both exist; each click
flips the `active` marker on both elements in lockstep, so whenever the
two elements start in agreement on the marker they agree after every
sequence of clicks. -/
theorem claim_C4 (d : Navigation.MenuDom) (n : Nat) :
    (d.toggleClasses = none ∨ d.navClasses = none → Navigation.setupMobileMenu d = d)
    ∧ (d.toggleClasses ≠ none → d.navClasses ≠ none →
        Navigation.setupMobileMenu d = { d with handlers := d.handlers + 1 })
    ∧ (∀ t nv, d.toggleClasses = some t → d.navClasses = some nv →
        Navigation.activeMarker (Navigation.menuClick d).toggleClasses
            = !(Navigation.activeMarker d.toggleClasses)
        ∧ Navigation.activeMarker (Navigation.menuClick d).navClasses
            = !(Navigation.activeMarker d.navClasses))
    ∧ (Navigation.activeMarker d.toggleClasses = Navigation.activeMarker d.navClasses →
        Navigation.activeMarker (Navigation.menuClicks n d).toggleClasses
          = Navigation.activeMarker (Navigation.menuClicks n d).navClasses) := by
  refine ⟨?_, ?_, ?_, menuClicks_agree n d⟩
  · rintro (h | h)
    · simp [Navigation.setupMobileMenu, h]
    · cases ht : d.toggleClasses <;> simp [Navigation.setupMobileMenu, h, ht]
  · intro ht hn
    cases hte : d.toggleClasses with
    | none => exact absurd hte ht
    | some t =>
      cases hne : d.navClasses with
      | none => exact absurd hne hn
      | some nv => simp [Navigation.setupMobileMenu, hte, hne]
  · intro t nv ht hn
    exact activeMarker_menuClick d t nv ht hn

/-- Claim C4 witness: the no-op case at a missing toggle element, the
binding case at a present pair, and marker agreement after three clicks
from the all-closed state. -/
theorem claim_C4_witness :
    Navigation.setupMobileMenu { toggleClasses := none, navClasses := some [], handlers := 0 }
      = { toggleClasses := none, navClasses := some [], handlers := 0 }
    ∧ Navigation.setupMobileMenu { toggleClasses := some [], navClasses := some [], handlers := 0 }
      = { toggleClasses := some [], navClasses := some [], handlers := 1 }
    ∧ Navigation.activeMarker (Navigation.menuClicks 3
          { toggleClasses := some [], navClasses := some [], handlers := 1 }).toggleClasses
      = Navigation.activeMarker (Navigation.menuClicks 3
          { toggleClasses := some [], navClasses := some [], handlers := 1 }).navClasses :=
  ⟨(claim_C4 _ 0).1 (Or.inl rfl),
   (claim_C4 _ 0).2.1 (by simp) (by simp),
   (claim_C4 _ 3).2.2.2 (by decide)⟩

/-! ### Utils claims -/

/-- Claim C1, counterexample: the claim says an http link is marked to
open in a new context if and only if its host differs from the page host;
but for page host `example.com` the link host `www.example.com` differs,
and the link is still left unmodified, because the code tests substring
containment of the page hostname inside the link hostname rather than
host equality. -/
theorem claim_C1_counterexample :
    strLeads "https://www.example.com/x" "http" = true
    ∧ ("www.example.com" : String) ≠ "example.com"
    ∧ (Utils.setupExternalLinks "example.com"
        [{ href := "https://www.example.com/x", hostname := "www.example.com",
           target := none, rel := none }]).map (fun l => l.target) = [none] := by
  refine ⟨by decide, by decide, ?_⟩
  decide

/-- Claim C1, amended: among anchors whose href starts with `http`,
`setupExternalLinks` sets `target` to `_blank` and `rel` to
`noopener noreferrer` exactly when the link's hostname does not contain
the page's hostname as a substring; links whose hostname contains the
page hostname — in particular those whose host equals the page's host —
are left unmodified, as are anchors not matched by the href selector. -/
theorem claim_C1 (pageHostname : String) (l : Utils.Link) :
    (strLeads l.href "http" = true → strIncludes l.hostname pageHostname = false →
      Utils.setupExternalLinks pageHostname [l]
        = [{ l with target := some "_blank", rel := some "noopener noreferrer" }])
    ∧ (strIncludes l.hostname pageHostname = true →
        Utils.setupExternalLinks pageHostname [l] = [l])
    ∧ (strLeads l.href "http" = false →
        Utils.setupExternalLinks pageHostname [l] = [l]) := by
  unfold Utils.setupExternalLinks
  refine ⟨fun h1 h2 => by simp [h1, h2], fun h2 => ?_, fun h1 => by simp [h1]⟩
  by_cases h1 : strLeads l.href "http" <;> simp [h1, h2]

/-- Claim C1 witness: a marked cross-host link, an untouched same-host
link, and an untouched relative link. -/
theorem claim_C1_witness :
    (strLeads "https://ext.org/doc" "http" = true
      ∧ strIncludes "ext.org" "example.com" = false
      ∧ Utils.setupExternalLinks "example.com"
          [{ href := "https://ext.org/doc", hostname := "ext.org",
             target := none, rel := none }]
          = [{ href := "https://ext.org/doc", hostname := "ext.org",
               target := some "_blank", rel := some "noopener noreferrer" }])
    ∧ (strIncludes "example.com" "example.com" = true
      ∧ Utils.setupExternalLinks "example.com"
          [{ href := "http://example.com/a", hostname := "example.com",
             target := none, rel := none }]
          = [{ href := "http://example.com/a", hostname := "example.com",
               target := none, rel := none }])
    ∧ (strLeads "/local.html" "http" = false
      ∧ Utils.setupExternalLinks "example.com"
          [{ href := "/local.html", hostname := "example.com",
             target := none, rel := none }]
          = [{ href := "/local.html", hostname := "example.com",
               target := none, rel := none }]) :=
  ⟨⟨by decide, by decide,
    (claim_C1 "example.com" _).1 (by decide) (by decide)⟩,
   ⟨by decide, (claim_C1 "example.com" _).2.1 (by decide)⟩,
   ⟨by decide, (claim_C1 "example.com" _).2.2 (by decide)⟩⟩

/-- Claim C9: a fresh copy button is labelled `Copy`; a click whose
clipboard write succeeds sets the label to `Copied!` and schedules the
fixed 2000 ms revert, after which the timer restores `Copy`; a click
whose clipboard write fails leaves the button entirely unchanged. -/
theorem claim_C9 (b : Utils.CopyButton) :
    Utils.newCopyButton.label = "Copy"
    ∧ (Utils.copyStep .clipboardOk b).label = "Copied!"
    ∧ (Utils.copyStep .clipboardOk b).pendingTimer = some 2000
    ∧ (Utils.copyStep .timerFire (Utils.copyStep .clipboardOk b)).label = "Copy"
    ∧ (Utils.copyStep .timerFire (Utils.copyStep .clipboardOk b)).pendingTimer = none
    ∧ Utils.copyStep .clipboardErr b = b :=
  ⟨rfl, rfl, rfl, rfl, rfl, rfl⟩

end JWTime
